import Mathlib

/-!
Verification of the layout / render-state engine of the `cgi` repository.

The Rust source is shallowly embedded: `f32` values are modelled as exact
rationals (`ℚ`), structs become structures, enum types become inductives,
and trait methods become plain functions.  Code of the crate that is not
part of the sources at hand (the `Style` type, the `Screen` type and the
crate `Error` enum) is either kept abstract (a type parameter together with
the functions the claim mentions) or modelled from the specification, as
marked in the doc comments.
-/

namespace Cgi

/-- Screen coordinate in pixels (`Location` in src/layout.rs). -/
structure Location where
  x : ℚ
  y : ℚ
  deriving Repr, DecidableEq

/-- Screen size in pixels (`Size` in src/layout.rs). -/
structure Size where
  width : ℚ
  height : ℚ
  deriving Repr, DecidableEq

/-- `cgmath::Point2<f32>`. -/
structure Point2 where
  x : ℚ
  y : ℚ
  deriving Repr, DecidableEq

/-- `stretch::style::Dimension`. -/
inductive Dimension where
  | Undefined
  | Auto
  | Points (v : ℚ)
  | Percent (v : ℚ)
  deriving Repr, DecidableEq

/-- `stretch::geometry::Size<α>`. -/
structure GSize (α : Type) where
  width : α
  height : α
  deriving Repr, DecidableEq

/-- `stretch::geometry::Point<α>`. -/
structure GPoint (α : Type) where
  x : α
  y : α
  deriving Repr, DecidableEq

/-- `stretch::result::Layout`: child order, computed size and location. -/
structure Layout where
  order : ℕ
  size : GSize ℚ
  location : GPoint ℚ
  deriving Repr, DecidableEq

/-- `impl From<Size> for stretch::geometry::Size<Dimension>`
(src/layout.rs lines 36-43). -/
def Size.into_dimension_size (val : Size) : GSize Dimension :=
  { width := Dimension.Points val.width
    height := Dimension.Points val.height }

/-- `impl From<stretch::geometry::Size<Dimension>> for Size`
(src/layout.rs lines 54-66).  The source matches on `val.width` in the
`height` arm as well. -/
def GSize.into_size (val : GSize Dimension) : Size :=
  let width := match val.width with
    | Dimension.Points w => w
    | _ => 0
  let height := match val.width with
    | Dimension.Points h => h
    | _ => 0
  { width := width, height := height }

/-- `BoxLayout` (src/layout.rs lines 150-156). -/
structure BoxLayout where
  x : ℚ
  y : ℚ
  w : ℚ
  h : ℚ
  deriving Repr, DecidableEq

/-- `impl From<stretch::result::Layout> for BoxLayout`
(src/layout.rs lines 164-179). -/
def BoxLayout.of_layout (val : Layout) : BoxLayout :=
  { x := val.location.x
    y := val.location.y
    w := val.size.width
    h := val.size.height }

/-- `BoxLayout::to_aspect_ratio` (src/layout.rs lines 182-192).  The source
wraps the result in the `AspectRatio` newtype, which dereferences to the
underlying point; the point is returned directly. -/
def BoxLayout.to_aspect_ratio (b : BoxLayout) : Point2 :=
  if b.w > b.h then
    { x := 1, y := b.h / b.w }
  else
    { x := b.w / b.h, y := 1 }

/-- `BoxLayout::to_ncc` (src/layout.rs lines 194-199). -/
def BoxLayout.to_ncc (b : BoxLayout) (point : Point2) : Point2 :=
  let ar := b.to_aspect_ratio
  { x := (point.x / b.w) * ar.x, y := (point.y / b.h) * ar.y }

/-- `BoxLayout::to_ndc` (src/layout.rs lines 201-206). -/
def BoxLayout.to_ndc (b : BoxLayout) (point : Point2) : Point2 :=
  let ar := b.to_aspect_ratio
  { x := (point.x / b.w) / ar.x, y := (point.y / b.h) / ar.y }

/-- `Viewport` (src/layout.rs lines 262-270). -/
structure Viewport where
  x : ℚ
  y : ℚ
  w : ℚ
  h : ℚ
  min_depth : ℚ
  max_depth : ℚ
  deriving Repr, DecidableEq

/-- `BoxLayout::to_viewport` (src/layout.rs lines 208-217). -/
def BoxLayout.to_viewport (b : BoxLayout) : Viewport :=
  { x := b.x, y := b.y, w := b.w, h := b.h, min_depth := 1, max_depth := 1 }

/-- `Viewport::root_viewport` (src/layout.rs lines 273-282). -/
def Viewport.root_viewport (size : Size) : Viewport :=
  { x := 0, y := 0, w := size.width, h := size.height
    min_depth := 1, max_depth := 1 }

/-- `State<T>` (src/layout.rs lines 68-76).  The crate's `Style` type is not
among the sources at hand, so the style slot is a type parameter `σ`; the
flex node handle is opaque and modelled as an optional index. -/
structure State (σ τ : Type) where
  style : σ
  computed_style : σ
  flex_node : Option ℕ
  box_layout : BoxLayout
  attrs : τ
  computed_attrs : τ
  deriving Repr, DecidableEq

/-- `State::resize` (src/layout.rs lines 132-139).  `Style::resize` and the
`Resize` impl of `T` live outside the sources at hand and are passed in as
the functions `styleResize` and `attrsResize`. -/
def State.resize {σ τ : Type} (styleResize : σ → Location → ℚ → σ)
    (attrsResize : τ → Location → ℚ → τ)
    (s : State σ τ) (offset : Location) (scale_factor : ℚ) : State σ τ :=
  { s with
    computed_style := styleResize s.style offset scale_factor
    computed_attrs := attrsResize s.attrs offset scale_factor }

/-- Circle `Attributes` (src/dom/circle/circle.rs lines 19-23). -/
structure Attributes where
  radius : ℚ
  fill : Bool
  deriving Repr, DecidableEq

/-- `impl Transform2D for Attributes` — `transform2d`
(src/dom/circle/circle.rs lines 34-41).  The offset parameter is unused by
the source (`_offset`). -/
def Attributes.transform2d (a : Attributes) (_offset : Location)
    (scale_factor : ℚ) : Attributes :=
  { a with radius := a.radius * scale_factor }

/-- Modelled from the spec: the crate's `Error` enum (not among the sources
at hand) wraps the GPU library's surface errors; section 7 of the spec names
`Error::SurfaceLost` and `Error::SurfaceOutOfMemory`, and `Other` stands for
every remaining wrapper (outdated, timeout, ...). -/
inductive Error where
  | SurfaceLost
  | SurfaceOutOfMemory
  | Other
  deriving Repr, DecidableEq

/-- `winit::event_loop::ControlFlow`, restricted to the one variant the
redraw handlers produce. -/
inductive ControlFlow where
  | Exit
  deriving Repr, DecidableEq

/-- Modelled from the spec: `Screen` (not among the sources at hand) keeps
the window's current physical size and the size its surface is configured
to. -/
structure Screen where
  physical_size : Size
  surface_size : Size
  deriving Repr, DecidableEq

/-- Modelled from the spec: `Screen::resize` reconfigures the surface to the
given size. -/
def Screen.resize (s : Screen) (size : Size) : Screen :=
  { s with surface_size := size }

/-- Modelled from the spec: `Screen::to_physical_size` returns the window's
current physical size. -/
def Screen.to_physical_size (s : Screen) : Size :=
  s.physical_size

/-- The error-dispatch `match` at the end of `on_redraw_requested`, written
identically in src/examples/cls/main.rs (lines 84-98),
src/examples/triangle/main.rs (lines 146-160) and
src/examples/points/main.rs (lines 169-183): given the result of
`Screen::render`, the updated screen and the control-flow decision. -/
def on_redraw_render_result (scr : Screen) (res : Except Error Unit) :
    Screen × Option ControlFlow :=
  match res with
  | Except.ok _ => (scr, none)
  | Except.error Error.SurfaceLost =>
      (scr.resize scr.to_physical_size, none)
  | Except.error Error.SurfaceOutOfMemory => (scr, some ControlFlow.Exit)
  | Except.error Error.Other => (scr, none)

end Cgi

namespace Cgi

/-! ### Shared helper lemmas -/

/-- With positive width and height both aspect-ratio components are positive
and at most one. -/
theorem to_aspect_ratio_mem_Ioc (b : BoxLayout) (hw : 0 < b.w)
    (hh : 0 < b.h) :
    (0 < b.to_aspect_ratio.x ∧ b.to_aspect_ratio.x ≤ 1) ∧
      (0 < b.to_aspect_ratio.y ∧ b.to_aspect_ratio.y ≤ 1) := by
  unfold BoxLayout.to_aspect_ratio
  by_cases hgt : b.w > b.h
  · simp only [if_pos hgt]
    exact ⟨⟨one_pos, le_refl 1⟩,
      div_pos hh hw, div_le_one_of_le₀ (le_of_lt hgt) (le_of_lt hw)⟩
  · simp only [if_neg hgt]
    push_neg at hgt
    exact ⟨⟨div_pos hw hh, div_le_one_of_le₀ hgt (le_of_lt hh)⟩,
      one_pos, le_refl 1⟩

/-! ### Claims -/

/-- C5: `From<stretch::result::Layout> for BoxLayout` copies the layout's
location into `x`, `y` and its size into `w`, `h`, and changes nothing
else. -/
theorem of_layout_copies_fields (val : Layout) :
    BoxLayout.of_layout val =
      { x := val.location.x, y := val.location.y,
        w := val.size.width, h := val.size.height } :=
  rfl

/-- C6: `transform2d` on circle attributes multiplies the radius by the
scale factor, keeps the fill flag, and ignores the offset. -/
theorem transform2d_scales_radius (a : Attributes) (offset : Location)
    (scale_factor : ℚ) :
    (a.transform2d offset scale_factor).radius = a.radius * scale_factor ∧
      (a.transform2d offset scale_factor).fill = a.fill ∧
      ∀ offset2 : Location,
        a.transform2d offset scale_factor =
          a.transform2d offset2 scale_factor :=
  ⟨rfl, rfl, fun _ => rfl⟩

/-- C10: both viewport constructors fix `min_depth = max_depth = 1`;
`to_viewport` copies the rectangle, `root_viewport` places the size at the
origin. -/
theorem viewport_depth_degenerate (b : BoxLayout) (size : Size) :
    b.to_viewport =
        { x := b.x, y := b.y, w := b.w, h := b.h,
          min_depth := 1, max_depth := 1 } ∧
      Viewport.root_viewport size =
        { x := 0, y := 0, w := size.width, h := size.height,
          min_depth := 1, max_depth := 1 } :=
  ⟨rfl, rfl⟩

/-- C9: `State::resize` writes only the computed style and computed
attributes; the style, attributes, flex node and box layout are
unchanged. -/
theorem state_resize_writes_only_computed {σ τ : Type}
    (styleResize : σ → Location → ℚ → σ) (attrsResize : τ → Location → ℚ → τ)
    (s : State σ τ) (offset : Location) (scale_factor : ℚ) :
    (s.resize styleResize attrsResize offset scale_factor).computed_style =
        styleResize s.style offset scale_factor ∧
      (s.resize styleResize attrsResize offset scale_factor).computed_attrs =
        attrsResize s.attrs offset scale_factor ∧
      (s.resize styleResize attrsResize offset scale_factor).style = s.style ∧
      (s.resize styleResize attrsResize offset scale_factor).attrs = s.attrs ∧
      (s.resize styleResize attrsResize offset scale_factor).flex_node =
        s.flex_node ∧
      (s.resize styleResize attrsResize offset scale_factor).box_layout =
        s.box_layout :=
  ⟨rfl, rfl, rfl, rfl, rfl, rfl⟩

/-- C4: the redraw handlers reconfigure the surface to the current physical
size on `SurfaceLost` and keep running, exit the loop on
`SurfaceOutOfMemory`, and keep running with the screen untouched on success
and on every other error. -/
theorem redraw_error_policy (scr : Screen) :
    on_redraw_render_result scr (Except.error Error.SurfaceLost) =
        (scr.resize scr.to_physical_size, none) ∧
      (on_redraw_render_result scr
          (Except.error Error.SurfaceLost)).1.surface_size =
        scr.physical_size ∧
      on_redraw_render_result scr (Except.error Error.SurfaceOutOfMemory) =
        (scr, some ControlFlow.Exit) ∧
      on_redraw_render_result scr (Except.error Error.Other) = (scr, none) ∧
      on_redraw_render_result scr (Except.ok ()) = (scr, none) :=
  ⟨rfl, rfl, rfl, rfl, rfl⟩

/-- C1: with positive width and height, `to_ncc` maps every point of the box
into the unit square, and computes exactly
`((p.x / w) * ar.x, (p.y / h) * ar.y)` with `ar = to_aspect_ratio()`. -/
theorem to_ncc_maps_into_unit_square (b : BoxLayout) (p : Point2)
    (hw : 0 < b.w) (hh : 0 < b.h) (hx0 : 0 ≤ p.x) (hxw : p.x ≤ b.w)
    (hy0 : 0 ≤ p.y) (hyh : p.y ≤ b.h) :
    b.to_ncc p =
        { x := (p.x / b.w) * b.to_aspect_ratio.x,
          y := (p.y / b.h) * b.to_aspect_ratio.y } ∧
      (0 ≤ (b.to_ncc p).x ∧ (b.to_ncc p).x ≤ 1) ∧
      (0 ≤ (b.to_ncc p).y ∧ (b.to_ncc p).y ≤ 1) := by
  obtain ⟨⟨hax0, hax1⟩, hay0, hay1⟩ := to_aspect_ratio_mem_Ioc b hw hh
  refine ⟨rfl, ⟨?_, ?_⟩, ?_, ?_⟩
  · exact mul_nonneg (div_nonneg hx0 (le_of_lt hw)) (le_of_lt hax0)
  · exact mul_le_one₀ ((div_le_one hw).mpr hxw) (le_of_lt hax0) hax1
  · exact mul_nonneg (div_nonneg hy0 (le_of_lt hh)) (le_of_lt hay0)
  · exact mul_le_one₀ ((div_le_one hh).mpr hyh) (le_of_lt hay0) hay1

/-- Witness for C1 at the box 2×1 and the point (1, 1). -/
theorem to_ncc_maps_into_unit_square_witness :
    BoxLayout.to_ncc ⟨0, 0, 2, 1⟩ ⟨1, 1⟩ =
        { x := ((1 : ℚ) / 2) * (BoxLayout.to_aspect_ratio ⟨0, 0, 2, 1⟩).x,
          y := ((1 : ℚ) / 1) * (BoxLayout.to_aspect_ratio ⟨0, 0, 2, 1⟩).y } ∧
      (0 ≤ (BoxLayout.to_ncc ⟨0, 0, 2, 1⟩ ⟨1, 1⟩).x ∧
        (BoxLayout.to_ncc ⟨0, 0, 2, 1⟩ ⟨1, 1⟩).x ≤ 1) ∧
      (0 ≤ (BoxLayout.to_ncc ⟨0, 0, 2, 1⟩ ⟨1, 1⟩).y ∧
        (BoxLayout.to_ncc ⟨0, 0, 2, 1⟩ ⟨1, 1⟩).y ≤ 1) :=
  to_ncc_maps_into_unit_square ⟨0, 0, 2, 1⟩ ⟨1, 1⟩ (by norm_num) (by norm_num)
    (by norm_num) (by norm_num) (by norm_num) (by norm_num)

/-- C2 counterexample: for the box of width 1 and height 2 the point (1, 0)
satisfies the claim's bounds, yet its normalized-device x-coordinate is 2,
outside [0, 1]. -/
theorem to_ndc_escapes_unit_square :
    (0 : ℚ) < 1 ∧ (0 : ℚ) < 2 ∧
      (0 : ℚ) ≤ 1 ∧ (1 : ℚ) ≤ 1 ∧ (0 : ℚ) ≤ 0 ∧ (0 : ℚ) ≤ 2 ∧
      (BoxLayout.to_ndc ⟨0, 0, 1, 2⟩ ⟨1, 0⟩).x = 2 ∧
      ¬(BoxLayout.to_ndc ⟨0, 0, 1, 2⟩ ⟨1, 0⟩).x ≤ 1 := by
  refine ⟨by norm_num, by norm_num, by norm_num, le_refl 1, le_refl 0,
    by norm_num, ?_, ?_⟩ <;>
    norm_num [BoxLayout.to_ndc, BoxLayout.to_aspect_ratio]

/-- C2 amended: with positive width and height, `to_ndc` maps every point of
the box to a point whose components lie in [0, max(w,h)/min(w,h)]; the
component of the longer axis lies in [0, 1]. -/
theorem to_ndc_bounded_by_axis_ratio (b : BoxLayout) (p : Point2)
    (hw : 0 < b.w) (hh : 0 < b.h) (hx0 : 0 ≤ p.x) (hxw : p.x ≤ b.w)
    (hy0 : 0 ≤ p.y) (hyh : p.y ≤ b.h) :
    (0 ≤ (b.to_ndc p).x ∧
        (b.to_ndc p).x ≤ max b.w b.h / min b.w b.h) ∧
      (0 ≤ (b.to_ndc p).y ∧
        (b.to_ndc p).y ≤ max b.w b.h / min b.w b.h) ∧
      (b.h < b.w → (b.to_ndc p).x ≤ 1) ∧
      (b.w ≤ b.h → (b.to_ndc p).y ≤ 1) := by
  obtain ⟨⟨hax0, -⟩, hay0, -⟩ := to_aspect_ratio_mem_Ioc b hw hh
  have hxdiv : p.x / b.w ≤ 1 := (div_le_one hw).mpr hxw
  have hydiv : p.y / b.h ≤ 1 := (div_le_one hh).mpr hyh
  have hndcx : (b.to_ndc p).x = (p.x / b.w) / b.to_aspect_ratio.x := rfl
  have hndcy : (b.to_ndc p).y = (p.y / b.h) / b.to_aspect_ratio.y := rfl
  have hx0' : 0 ≤ (b.to_ndc p).x := by
    rw [hndcx]
    exact div_nonneg (div_nonneg hx0 (le_of_lt hw)) (le_of_lt hax0)
  have hy0' : 0 ≤ (b.to_ndc p).y := by
    rw [hndcy]
    exact div_nonneg (div_nonneg hy0 (le_of_lt hh)) (le_of_lt hay0)
  by_cases hgt : b.w > b.h
  · have harx : b.to_aspect_ratio.x = 1 := by
      unfold BoxLayout.to_aspect_ratio
      rw [if_pos hgt]
    have hary : b.to_aspect_ratio.y = b.h / b.w := by
      unfold BoxLayout.to_aspect_ratio
      rw [if_pos hgt]
    have hmax : max b.w b.h = b.w := max_eq_left (le_of_lt hgt)
    have hmin : min b.w b.h = b.h := min_eq_right (le_of_lt hgt)
    have hx1 : (b.to_ndc p).x ≤ 1 := by
      rw [hndcx, harx, div_one]
      exact hxdiv
    have hratio : (1 : ℚ) ≤ b.w / b.h := (one_le_div hh).mpr (le_of_lt hgt)
    have hy1 : (b.to_ndc p).y ≤ b.w / b.h := by
      rw [hndcy, hary]
      have := (div_le_div_iff_of_pos_right (c := b.h / b.w) (div_pos hh hw)).mpr hydiv
      rwa [one_div_div] at this
    refine ⟨⟨hx0', ?_⟩, ⟨hy0', ?_⟩, fun _ => hx1, fun hle => absurd hgt ?_⟩
    · rw [hmax, hmin]; exact le_trans hx1 hratio
    · rw [hmax, hmin]; exact hy1
    · exact not_lt.mpr hle
  · push_neg at hgt
    have harx : b.to_aspect_ratio.x = b.w / b.h := by
      unfold BoxLayout.to_aspect_ratio
      rw [if_neg (not_lt.mpr hgt)]
    have hary : b.to_aspect_ratio.y = 1 := by
      unfold BoxLayout.to_aspect_ratio
      rw [if_neg (not_lt.mpr hgt)]
    have hmax : max b.w b.h = b.h := max_eq_right hgt
    have hmin : min b.w b.h = b.w := min_eq_left hgt
    have hy1 : (b.to_ndc p).y ≤ 1 := by
      rw [hndcy, hary, div_one]
      exact hydiv
    have hratio : (1 : ℚ) ≤ b.h / b.w := (one_le_div hw).mpr hgt
    have hx1 : (b.to_ndc p).x ≤ b.h / b.w := by
      rw [hndcx, harx]
      have := (div_le_div_iff_of_pos_right (c := b.w / b.h) (div_pos hw hh)).mpr hxdiv
      rwa [one_div_div] at this
    refine ⟨⟨hx0', ?_⟩, ⟨hy0', ?_⟩, fun hlt => absurd hlt ?_, fun _ => hy1⟩
    · rw [hmax, hmin]; exact hx1
    · rw [hmax, hmin]; exact le_trans hy1 hratio
    · exact not_lt.mpr hgt

/-- Witness for the amended C2 at the box 1×2 and the point (1, 0). -/
theorem to_ndc_bounded_by_axis_ratio_witness :
    (0 ≤ (BoxLayout.to_ndc ⟨0, 0, 1, 2⟩ ⟨1, 0⟩).x ∧
        (BoxLayout.to_ndc ⟨0, 0, 1, 2⟩ ⟨1, 0⟩).x ≤
          max (1 : ℚ) 2 / min (1 : ℚ) 2) ∧
      (0 ≤ (BoxLayout.to_ndc ⟨0, 0, 1, 2⟩ ⟨1, 0⟩).y ∧
        (BoxLayout.to_ndc ⟨0, 0, 1, 2⟩ ⟨1, 0⟩).y ≤
          max (1 : ℚ) 2 / min (1 : ℚ) 2) ∧
      ((2 : ℚ) < 1 → (BoxLayout.to_ndc ⟨0, 0, 1, 2⟩ ⟨1, 0⟩).x ≤ 1) ∧
      ((1 : ℚ) ≤ 2 → (BoxLayout.to_ndc ⟨0, 0, 1, 2⟩ ⟨1, 0⟩).y ≤ 1) :=
  to_ndc_bounded_by_axis_ratio ⟨0, 0, 1, 2⟩ ⟨1, 0⟩ (by norm_num) (by norm_num)
    (by norm_num) (by norm_num) (by norm_num) (by norm_num)

/-- C7: with positive width and height, `to_ncc` and `to_ndc` are related
componentwise through the squared aspect ratio. -/
theorem to_ncc_eq_to_ndc_mul_sq_aspect (b : BoxLayout) (p : Point2)
    (hw : 0 < b.w) (hh : 0 < b.h) :
    (b.to_ncc p).x = (b.to_ndc p).x * b.to_aspect_ratio.x ^ 2 ∧
      (b.to_ncc p).y = (b.to_ndc p).y * b.to_aspect_ratio.y ^ 2 := by
  obtain ⟨⟨hax0, -⟩, hay0, -⟩ := to_aspect_ratio_mem_Ioc b hw hh
  have hxne : b.to_aspect_ratio.x ≠ 0 := ne_of_gt hax0
  have hyne : b.to_aspect_ratio.y ≠ 0 := ne_of_gt hay0
  constructor
  · show (p.x / b.w) * b.to_aspect_ratio.x =
      (p.x / b.w) / b.to_aspect_ratio.x * b.to_aspect_ratio.x ^ 2
    field_simp
    ring
  · show (p.y / b.h) * b.to_aspect_ratio.y =
      (p.y / b.h) / b.to_aspect_ratio.y * b.to_aspect_ratio.y ^ 2
    field_simp
    ring

/-- Witness for C7 at the box 2×1 and the point (3, 5). -/
theorem to_ncc_eq_to_ndc_mul_sq_aspect_witness :
    (BoxLayout.to_ncc ⟨0, 0, 2, 1⟩ ⟨3, 5⟩).x =
        (BoxLayout.to_ndc ⟨0, 0, 2, 1⟩ ⟨3, 5⟩).x *
          (BoxLayout.to_aspect_ratio ⟨0, 0, 2, 1⟩).x ^ 2 ∧
      (BoxLayout.to_ncc ⟨0, 0, 2, 1⟩ ⟨3, 5⟩).y =
        (BoxLayout.to_ndc ⟨0, 0, 2, 1⟩ ⟨3, 5⟩).y *
          (BoxLayout.to_aspect_ratio ⟨0, 0, 2, 1⟩).y ^ 2 :=
  to_ncc_eq_to_ndc_mul_sq_aspect ⟨0, 0, 2, 1⟩ ⟨3, 5⟩ (by norm_num)
    (by norm_num)

/-- C8: with positive width and height the aspect-ratio components lie in
(0, 1], the larger component is exactly one, and equal width and height give
(1, 1). -/
theorem to_aspect_ratio_unit_major (b : BoxLayout) (hw : 0 < b.w)
    (hh : 0 < b.h) :
    (0 < b.to_aspect_ratio.x ∧ b.to_aspect_ratio.x ≤ 1) ∧
      (0 < b.to_aspect_ratio.y ∧ b.to_aspect_ratio.y ≤ 1) ∧
      max b.to_aspect_ratio.x b.to_aspect_ratio.y = 1 ∧
      (b.w = b.h → b.to_aspect_ratio.x = 1 ∧ b.to_aspect_ratio.y = 1) := by
  obtain ⟨⟨hax0, hax1⟩, hay0, hay1⟩ := to_aspect_ratio_mem_Ioc b hw hh
  refine ⟨⟨hax0, hax1⟩, ⟨hay0, hay1⟩, ?_, ?_⟩
  · by_cases hgt : b.w > b.h
    · have harx : b.to_aspect_ratio.x = 1 := by
        unfold BoxLayout.to_aspect_ratio
        rw [if_pos hgt]
      rw [harx]
      exact max_eq_left hay1
    · have hary : b.to_aspect_ratio.y = 1 := by
        unfold BoxLayout.to_aspect_ratio
        rw [if_neg hgt]
      rw [hary]
      exact max_eq_right hax1
  · intro heq
    have hngt : ¬b.w > b.h := by rw [heq]; exact lt_irrefl b.h
    constructor
    · show (if b.w > b.h then ({ x := 1, y := b.h / b.w } : Point2)
        else { x := b.w / b.h, y := 1 }).x = 1
      rw [if_neg hngt, heq]
      exact div_self (ne_of_gt hh)
    · show (if b.w > b.h then ({ x := 1, y := b.h / b.w } : Point2)
        else { x := b.w / b.h, y := 1 }).y = 1
      rw [if_neg hngt]

/-- Witness for C8 at the box 3×2. -/
theorem to_aspect_ratio_unit_major_witness :
    (0 < (BoxLayout.to_aspect_ratio ⟨0, 0, 3, 2⟩).x ∧
        (BoxLayout.to_aspect_ratio ⟨0, 0, 3, 2⟩).x ≤ 1) ∧
      (0 < (BoxLayout.to_aspect_ratio ⟨0, 0, 3, 2⟩).y ∧
        (BoxLayout.to_aspect_ratio ⟨0, 0, 3, 2⟩).y ≤ 1) ∧
      max (BoxLayout.to_aspect_ratio ⟨0, 0, 3, 2⟩).x
          (BoxLayout.to_aspect_ratio ⟨0, 0, 3, 2⟩).y = 1 ∧
      ((3 : ℚ) = 2 → (BoxLayout.to_aspect_ratio ⟨0, 0, 3, 2⟩).x = 1 ∧
        (BoxLayout.to_aspect_ratio ⟨0, 0, 3, 2⟩).y = 1) :=
  to_aspect_ratio_unit_major ⟨0, 0, 3, 2⟩ (by norm_num) (by norm_num)

/-- C3 (code bug): the `Size` round-trip through the layout library's
dimension type loses the height — the second conversion builds the height
from `val.width` — so a size with distinct width and height does not
round-trip. -/
theorem size_roundtrip_loses_height :
    GSize.into_size (Size.into_dimension_size { width := 1, height := 2 }) =
        { width := 1, height := 1 } ∧
      GSize.into_size (Size.into_dimension_size { width := 1, height := 2 }) ≠
        { width := 1, height := 2 } := by
  constructor
  · rfl
  · decide

end Cgi
